import Mathlib

/-!
Verification of `SceneManager.cpp` (CS-330 final project scene manager).

The C++ source is shallowly embedded below.  C `float` values are modelled as
exact rationals (every decimal literal in the source is taken at face value);
OpenGL texture names produced by `glGenTextures` are modelled by a counter that
yields the next fresh name; console output (`std::cout`) is modelled as a list
of abstract messages; the result of `stbi_load` is an input to the model
(`Option ImageData`).  An out-of-bounds write to the fixed-size texture array
is undefined behaviour in C++ and is modelled by the value `none`.
-/

set_option autoImplicit false

namespace SceneMgr

/-- One entry of the texture registration array: an OpenGL texture name
(`GLuint ID`) together with the tag string it was registered under. -/
structure TextureEntry where
  ID : Nat
  tag : String
  deriving Repr, DecidableEq

/-- Modelled from the spec: the member array `m_textureIDs` is declared in
`SceneManager.h`, which is not part of the sources; the in-source comment on
`BindGLTextures` records its capacity: "There are up to 16 slots."  The
texture registration state is that 16-slot array plus the counter
`m_loadedTextures`. -/
structure TextureState where
  m_textureIDs : Fin 16 → TextureEntry
  m_loadedTextures : Nat

instance : DecidableEq TextureState := fun a b =>
  decidable_of_iff
    (a.m_textureIDs = b.m_textureIDs ∧ a.m_loadedTextures = b.m_loadedTextures)
    (by cases a; cases b; simp)

/-- The data `stbi_load` reports about a successfully decoded image. -/
structure ImageData where
  width : Nat
  height : Nat
  colorChannels : Nat
  deriving Repr, DecidableEq

/-- The console messages `CreateGLTexture` can print, one constructor per
`std::cout` statement in the source. -/
inductive ConsoleMsg where
  | runtimeDir
  | attempting (filename : String)
  | successLoaded (filename : String) (width height colorChannels : Nat)
  | notImplementedChannels (colorChannels : Nat)
  | couldNotLoad (filename : String)
  deriving Repr, DecidableEq

/-- Everything a call to `CreateGLTexture` produces: the boolean return value,
the texture-registration state after the call, the next fresh GL texture name,
and the console output. -/
structure LoadResult where
  ret : Bool
  st : TextureState
  nextName : Nat
  console : List ConsoleMsg
  deriving DecidableEq

/-- `SceneManager::CreateGLTexture(filename, tag)`.  `decoded` is the result
of `stbi_load` on `filename`; `nextName` is the next fresh OpenGL texture
name (`glGenTextures` yields it and advances the counter).  On the success
path the source writes `m_textureIDs[m_loadedTextures]` with no bounds check;
when `m_loadedTextures` is outside the 16-slot array that write is undefined
behaviour, modelled as `none`. -/
def CreateGLTexture (filename tag : String) (decoded : Option ImageData)
    (st : TextureState) (nextName : Nat) : Option LoadResult :=
  let console0 := [ConsoleMsg.runtimeDir, ConsoleMsg.attempting filename]
  match decoded with
  | some image =>
      let console1 := console0 ++
        [ConsoleMsg.successLoaded filename image.width image.height image.colorChannels]
      let textureID := nextName
      if image.colorChannels = 3 ∨ image.colorChannels = 4 then
        if h : st.m_loadedTextures < 16 then
          some { ret := true
                 st := { m_textureIDs :=
                           Function.update st.m_textureIDs
                             ⟨st.m_loadedTextures, h⟩ ⟨textureID, tag⟩
                         m_loadedTextures := st.m_loadedTextures + 1 }
                 nextName := nextName + 1
                 console := console1 }
        else
          none
      else
        some { ret := false
               st := st
               nextName := nextName + 1
               console := console1 ++
                 [ConsoleMsg.notImplementedChannels image.colorChannels] }
  | none =>
      some { ret := false
             st := st
             nextName := nextName
             console := console0 ++ [ConsoleMsg.couldNotLoad filename] }

/-- `glm::vec2`, with components as exact rationals. -/
structure Vec2 where
  x : ℚ
  y : ℚ
  deriving Repr, DecidableEq

/-- `glm::vec3`, with components as exact rationals. -/
structure Vec3 where
  x : ℚ
  y : ℚ
  z : ℚ
  deriving Repr, DecidableEq

instance : Add Vec3 :=
  ⟨fun a b => ⟨a.x + b.x, a.y + b.y, a.z + b.z⟩⟩

/-- `glm::vec4`, with components as exact rationals. -/
structure Vec4 where
  r : ℚ
  g : ℚ
  b : ℚ
  a : ℚ
  deriving Repr, DecidableEq

/-- `glm::mat4` as a 4×4 rational matrix (column-vector convention, as in
glm: the product `M * v` applies `M` to the point `v`). -/
abbrev Mat4 := Matrix (Fin 4) (Fin 4) ℚ

/-- `glm::scale(v)`. -/
def glmScale (v : Vec3) : Mat4 :=
  Matrix.of
    ![![v.x, 0, 0, 0],
      ![0, v.y, 0, 0],
      ![0, 0, v.z, 0],
      ![0, 0, 0, 1]]

/-- `glm::rotate(angle, axis)` for a unit axis (the source only ever passes
the coordinate axes, which glm's normalisation leaves unchanged): the
Rodrigues rotation matrix, with `c` and `s` the cosine and sine of the
angle. -/
def glmRotate (c s : ℚ) (a : Vec3) : Mat4 :=
  let t := 1 - c
  Matrix.of
    ![![t * a.x * a.x + c, t * a.x * a.y - s * a.z, t * a.x * a.z + s * a.y, 0],
      ![t * a.x * a.y + s * a.z, t * a.y * a.y + c, t * a.y * a.z - s * a.x, 0],
      ![t * a.x * a.z - s * a.y, t * a.y * a.z + s * a.x, t * a.z * a.z + c, 0],
      ![0, 0, 0, 1]]

/-- `glm::translate(v)`. -/
def glmTranslate (v : Vec3) : Mat4 :=
  Matrix.of
    ![![1, 0, 0, v.x],
      ![0, 1, 0, v.y],
      ![0, 0, 1, v.z],
      ![0, 0, 0, 1]]

/-- The transcendental functions the transform pipeline uses, kept abstract
(they have no exact rational values): `rad` is `glm::radians`, `cosf` and
`sinf` the cosine and sine applied by `glm::rotate`. -/
structure Trig where
  rad : ℚ → ℚ
  cosf : ℚ → ℚ
  sinf : ℚ → ℚ

/-- The OpenGL calls `DestroyGLTextures` can make on texture objects.  The GL
API's way of freeing texture objects is `glDeleteTextures`; the source never
calls it, so the constructor is never emitted by the model. -/
inductive GLCall where
  | genTextures
  | deleteTextures
  deriving Repr, DecidableEq

/-- One iteration of the loop in `DestroyGLTextures`:
`glGenTextures(1, &m_textureIDs[i].ID)` stores a fresh texture name into the
`ID` field of slot `i`, leaving the tag alone.  An index outside the 16-slot
array would be an out-of-bounds write, modelled as `none`. -/
def genAtSlot (st : TextureState) (name i : Nat) : Option (TextureState × Nat) :=
  if h : i < 16 then
    some ({ st with
            m_textureIDs :=
              Function.update st.m_textureIDs ⟨i, h⟩
                ⟨name, (st.m_textureIDs ⟨i, h⟩).tag⟩ }, name + 1)
  else
    none

/-- The loop of `SceneManager::DestroyGLTextures` over a list of slot
indices, accumulating the GL calls it makes. -/
def destroyLoop : List Nat → TextureState → Nat → List GLCall →
    Option (TextureState × Nat × List GLCall)
  | [], st, name, calls => some (st, name, calls)
  | i :: is, st, name, calls =>
      match genAtSlot st name i with
      | some (st', name') => destroyLoop is st' name' (calls ++ [GLCall.genTextures])
      | none => none

/-- `SceneManager::DestroyGLTextures`: for each slot `i` in
`[0, m_loadedTextures)` it calls `glGenTextures(1, &m_textureIDs[i].ID)`. -/
def DestroyGLTextures (st : TextureState) (name : Nat) :
    Option (TextureState × Nat × List GLCall) :=
  destroyLoop (List.range st.m_loadedTextures) st name []

/-- `SceneManager::FindTextureSlot` loop body: walk the registered slots in
order and return the index of the first entry whose tag matches, `-1` when
none does. -/
def findSlotAux (st : TextureState) (tag : String) : List (Fin 16) → Int
  | [] => -1
  | i :: is =>
      if (st.m_textureIDs i).tag = tag then (i : Nat) else findSlotAux st tag is

/-- `SceneManager::FindTextureSlot(tag)`: searches the first
`m_loadedTextures` slots of the registration array.  In every defined
execution `m_loadedTextures ≤ 16` (`CreateGLTexture` is the only writer and
an overflowing registration is undefined behaviour), so the slots scanned are
the first `min m_loadedTextures 16` indices. -/
def FindTextureSlot (st : TextureState) (tag : String) : Int :=
  findSlotAux st tag ((List.finRange 16).take st.m_loadedTextures)

/-- `OBJECT_MATERIAL`: diffuse and specular colors, shininess, and tag.
Color vectors are triples of rationals. -/
structure OBJECT_MATERIAL where
  diffuseColor : Vec3
  specularColor : Vec3
  shininess : ℚ
  tag : String
  deriving Repr, DecidableEq

/-- The `while` loop of `SceneManager::FindMaterial`: scan the materials in
order; at the first entry whose tag matches, copy its `diffuseColor`,
`specularColor` and `shininess` (not its tag) into the by-reference
`material` argument and stop.  When no entry matches, `material` is left as
it was. -/
def findMaterialLoop : List OBJECT_MATERIAL → String → OBJECT_MATERIAL →
    OBJECT_MATERIAL
  | [], _, material => material
  | m :: rest, tag, material =>
      if m.tag = tag then
        { material with
          diffuseColor := m.diffuseColor
          specularColor := m.specularColor
          shininess := m.shininess }
      else
        findMaterialLoop rest tag material

/-- `SceneManager::FindMaterial(tag, material)`: returns `false` when the
materials list is empty; otherwise runs the scan loop and returns `true`
regardless of whether any tag matched.  The returned pair is (return value,
final value of the by-reference `material` argument). -/
def FindMaterial (ms : List OBJECT_MATERIAL) (tag : String)
    (material : OBJECT_MATERIAL) : Bool × OBJECT_MATERIAL :=
  if ms.length = 0 then (false, material)
  else (true, findMaterialLoop ms tag material)

/-- The shapes the scene draws (`ShapeMeshes::Draw*Mesh`). -/
inductive ShapeKind where
  | plane
  | box
  | prism
  | cylinder
  deriving Repr, DecidableEq

/-- One observable action of the scene manager: a write to a named shader
uniform through one of the `ShaderManager::set*Value` methods, or a draw
call.  `setInt` carries the C++ `int` value (`setIntValue` is called with a
`bool` that converts to `0` or `1`). -/
inductive Event where
  | setMat4 (uniformName : String) (m : Mat4)
  | setVec4 (uniformName : String) (v : Vec4)
  | setVec3 (uniformName : String) (v : Vec3)
  | setVec2 (uniformName : String) (v : Vec2)
  | setFloat (uniformName : String) (value : ℚ)
  | setInt (uniformName : String) (value : Int)
  | setSampler2D (uniformName : String) (value : Int)
  | setBool (uniformName : String) (b : Bool)
  | draw (s : ShapeKind)

/-- The uniform name an event writes (`""` for a draw call). -/
def Event.name : Event → String
  | .setMat4 n _ => n
  | .setVec4 n _ => n
  | .setVec3 n _ => n
  | .setVec2 n _ => n
  | .setFloat n _ => n
  | .setInt n _ => n
  | .setSampler2D n _ => n
  | .setBool n _ => n
  | .draw _ => ""

/-- The zero vector `glm::vec3(0.0f)`, the default value of the `offset`
parameter of `SetTransformations` (declared in `SceneManager.h`; every call
in the source leaves it defaulted). -/
def vec3Zero : Vec3 := ⟨0, 0, 0⟩

/-- `SceneManager::SetTransformations`: builds
`translation * rotationZ * rotationY * rotationX * scale` (with the angles
converted by `glm::radians`) and writes it to the `"model"` uniform when
`m_pShaderManager` is non-null (`hasShader`); a null shader manager writes
nothing. -/
def SetTransformations (tr : Trig) (hasShader : Bool) (scaleXYZ : Vec3)
    (XrotationDegrees YrotationDegrees ZrotationDegrees : ℚ)
    (positionXYZ offset : Vec3) : List Event :=
  let scale := glmScale scaleXYZ
  let rotationX := glmRotate (tr.cosf (tr.rad XrotationDegrees))
    (tr.sinf (tr.rad XrotationDegrees)) ⟨1, 0, 0⟩
  let rotationY := glmRotate (tr.cosf (tr.rad YrotationDegrees))
    (tr.sinf (tr.rad YrotationDegrees)) ⟨0, 1, 0⟩
  let rotationZ := glmRotate (tr.cosf (tr.rad ZrotationDegrees))
    (tr.sinf (tr.rad ZrotationDegrees)) ⟨0, 0, 1⟩
  let translation := glmTranslate (positionXYZ + offset)
  let modelView := translation * rotationZ * rotationY * rotationX * scale
  if hasShader then [Event.setMat4 "model" modelView] else []

/-- `SceneManager::SetShaderColor`: with a non-null shader manager, sets the
`bUseTexture` uniform to `false` (the `int` 0) and `objectColor` to the given
RGBA. -/
def SetShaderColor (hasShader : Bool)
    (redColorValue greenColorValue blueColorValue alphaValue : ℚ) :
    List Event :=
  if hasShader then
    [Event.setInt "bUseTexture" 0,
     Event.setVec4 "objectColor"
       ⟨redColorValue, greenColorValue, blueColorValue, alphaValue⟩]
  else []

/-- `SceneManager::SetShaderTexture`: with a non-null shader manager, sets
`bUseTexture` to `true` (the `int` 1) and `objectTexture` to the slot found
for the tag. -/
def SetShaderTexture (hasShader : Bool) (ts : TextureState)
    (textureTag : String) : List Event :=
  if hasShader then
    [Event.setInt "bUseTexture" 1,
     Event.setSampler2D "objectTexture" (FindTextureSlot ts textureTag)]
  else []

/-- `SceneManager::SetTextureUVScale`. -/
def SetTextureUVScale (hasShader : Bool) (u v : ℚ) : List Event :=
  if hasShader then [Event.setVec2 "UVscale" ⟨u, v⟩] else []

/-- `SceneManager::SetShaderMaterial`: when the materials list is non-empty,
looks the tag up with `FindMaterial` and, on a `true` return, writes the
three material uniforms.  `junk` models the stack-local `OBJECT_MATERIAL
material;` the method declares without initialising: on a no-match lookup the
written values are whatever that uninitialised record held.  (The shader
manager is dereferenced without a null check here.) -/
def SetShaderMaterial (ms : List OBJECT_MATERIAL) (materialTag : String)
    (junk : OBJECT_MATERIAL) : List Event :=
  if 0 < ms.length then
    let res := FindMaterial ms materialTag junk
    if res.1 then
      [Event.setVec3 "material.diffuseColor" res.2.diffuseColor,
       Event.setVec3 "material.specularColor" res.2.specularColor,
       Event.setFloat "material.shininess" res.2.shininess]
    else []
  else []

/-- `SceneManager::DefineObjectMaterials`: the materials list after the two
`push_back` calls. -/
def DefineObjectMaterials : List OBJECT_MATERIAL :=
  [⟨⟨0.5, 0.5, 0.5⟩, ⟨0.4, 0.4, 0.4⟩, 0.5, "cement"⟩,
   ⟨⟨1, 1, 1⟩, ⟨0.2, 0.2, 0.2⟩, 2, "plastic"⟩]

/-- `SceneManager::SetupSceneLights`: the exact sequence of uniform writes it
performs (the shader manager is dereferenced without a null check). -/
def SetupSceneLights : List Event :=
  [Event.setBool "bUseLighting" true,
   Event.setVec3 "pointLights[0].position" ⟨0, 9.5, 2.5⟩,
   Event.setVec3 "pointLights[0].ambient" ⟨0.15, 0.15, 0.15⟩,
   Event.setVec3 "pointLights[0].diffuse" ⟨0.6, 0.6, 0.6⟩,
   Event.setVec3 "pointLights[0].specular" ⟨0.5, 0.5, 0.5⟩,
   Event.setFloat "pointLights[0].constant" 1,
   Event.setFloat "pointLights[0].linear" 0.045,
   Event.setFloat "pointLights[0].quadratic" 0.0075,
   Event.setBool "pointLights[0].bActive" true,
   Event.setVec3 "pointLights[1].position" ⟨-1.25, 3.5, 3⟩,
   Event.setVec3 "pointLights[1].ambient" ⟨0.05, 0.1, 0.2⟩,
   Event.setVec3 "pointLights[1].diffuse" ⟨0.2, 0.4, 0.8⟩,
   Event.setVec3 "pointLights[1].specular" ⟨0.1, 0.2, 0.4⟩,
   Event.setFloat "pointLights[1].constant" 1,
   Event.setFloat "pointLights[1].linear" 0.22,
   Event.setFloat "pointLights[1].quadratic" 0.2,
   Event.setBool "pointLights[1].bActive" true,
   Event.setBool "bUseLighting" true]

/-- The scene-manager state the rendering methods read: whether
`m_pShaderManager` is non-null, the texture registration state, the materials
list, and the (uninitialised) stack material record `SetShaderMaterial`
falls back to. -/
structure SceneState where
  hasShader : Bool
  texState : TextureState
  materials : List OBJECT_MATERIAL
  junkMaterial : OBJECT_MATERIAL

/-- `SceneManager::DrawMainBody`. -/
def DrawMainBody (tr : Trig) (st : SceneState) : List Event :=
  SetTransformations tr st.hasShader ⟨7, 5, 5⟩ 0 0 0 ⟨0, 3.5, 0⟩ vec3Zero
  ++ SetShaderTexture st.hasShader st.texState "ComputerCase"
  ++ SetShaderMaterial st.materials "plastic" st.junkMaterial
  ++ SetTextureUVScale st.hasShader 2 2
  ++ [Event.draw ShapeKind.box]

/-- `SceneManager::DrawBackBase`. -/
def DrawBackBase (tr : Trig) (st : SceneState) : List Event :=
  SetTransformations tr st.hasShader ⟨7, 2.5, 3⟩ 0 0 0 ⟨0, 1.25, -1⟩ vec3Zero
  ++ SetShaderTexture st.hasShader st.texState "ComputerCase"
  ++ SetShaderMaterial st.materials "plastic" st.junkMaterial
  ++ SetTextureUVScale st.hasShader 2 2
  ++ [Event.draw ShapeKind.box]

/-- `SceneManager::DrawFeet`: front foot box and prism wedge on each side. -/
def DrawFeet (tr : Trig) (st : SceneState) : List Event :=
  SetTransformations tr st.hasShader ⟨1, 1, 0.2⟩ 0 0 0 ⟨-3, 0.5, 0.6⟩ vec3Zero
  ++ SetShaderTexture st.hasShader st.texState "ComputerCase"
  ++ SetShaderMaterial st.materials "plastic" st.junkMaterial
  ++ SetTextureUVScale st.hasShader 2 2
  ++ [Event.draw ShapeKind.box]
  ++ SetTransformations tr st.hasShader ⟨1, 1, 0.5⟩ (-90) 90 0 ⟨-3, 0.25, 0.7⟩ vec3Zero
  ++ SetShaderTexture st.hasShader st.texState "ComputerCase"
  ++ SetShaderMaterial st.materials "plastic" st.junkMaterial
  ++ SetTextureUVScale st.hasShader 2 2
  ++ [Event.draw ShapeKind.prism]
  ++ SetTransformations tr st.hasShader ⟨1, 1, 0.2⟩ 0 0 0 ⟨3, 0.5, 0.6⟩ vec3Zero
  ++ SetShaderTexture st.hasShader st.texState "ComputerCase"
  ++ SetShaderMaterial st.materials "plastic" st.junkMaterial
  ++ SetTextureUVScale st.hasShader 2 2
  ++ [Event.draw ShapeKind.box]
  ++ SetTransformations tr st.hasShader ⟨1, 1, 0.5⟩ (-90) 90 0 ⟨3, 0.25, 0.7⟩ vec3Zero
  ++ SetShaderTexture st.hasShader st.texState "ComputerCase"
  ++ SetShaderMaterial st.materials "plastic" st.junkMaterial
  ++ SetTextureUVScale st.hasShader 2 2
  ++ [Event.draw ShapeKind.prism]

/-- `SceneManager::DrawFloppyDrive`: the indentation box and the two dark
slot boxes. -/
def DrawFloppyDrive (tr : Trig) (st : SceneState) : List Event :=
  SetTransformations tr st.hasShader ⟨2, 2.5, 0.2⟩ 0 0 0 ⟨2, 3.5, 2.6⟩ vec3Zero
  ++ SetShaderTexture st.hasShader st.texState "ComputerCase"
  ++ SetShaderMaterial st.materials "plastic" st.junkMaterial
  ++ SetTextureUVScale st.hasShader 2 2
  ++ [Event.draw ShapeKind.box]
  ++ SetTransformations tr st.hasShader ⟨1.5, 0.1, 0.05⟩ 0 0 0 ⟨2, 4.4, 2.7⟩ vec3Zero
  ++ SetShaderColor st.hasShader 0.1 0.1 0.1 1
  ++ [Event.draw ShapeKind.box]
  ++ SetTransformations tr st.hasShader ⟨1.5, 0.1, 0.05⟩ 0 0 0 ⟨2, 2.8, 2.7⟩ vec3Zero
  ++ SetShaderColor st.hasShader 0.1 0.1 0.1 1
  ++ [Event.draw ShapeKind.box]

/-- `SceneManager::DrawCRTPanel`. -/
def DrawCRTPanel (tr : Trig) (st : SceneState) : List Event :=
  SetTransformations tr st.hasShader ⟨3.5, 2.8, 0.2⟩ 0 0 0 ⟨-1.25, 3.5, 2.6⟩ vec3Zero
  ++ SetShaderTexture st.hasShader st.texState "CRTScreen"
  ++ SetTextureUVScale st.hasShader 1 1
  ++ [Event.draw ShapeKind.box]

/-- `SceneManager::DrawProFile`: the main body box and four rubber-feet
boxes. -/
def DrawProFile (tr : Trig) (st : SceneState) : List Event :=
  SetTransformations tr st.hasShader ⟨6.5, 1, 4⟩ 0 0 0 ⟨0, 6.7, 0⟩ vec3Zero
  ++ SetShaderTexture st.hasShader st.texState "ComputerCase"
  ++ SetShaderMaterial st.materials "plastic" st.junkMaterial
  ++ SetTextureUVScale st.hasShader 2 2
  ++ [Event.draw ShapeKind.box]
  ++ SetTransformations tr st.hasShader ⟨0.3, 0.2, 0.3⟩ 0 0 0 ⟨-2.75, 6.10, -1.5⟩ vec3Zero
  ++ SetShaderColor st.hasShader 0.05 0.05 0.05 1
  ++ [Event.draw ShapeKind.box]
  ++ SetTransformations tr st.hasShader ⟨0.3, 0.2, 0.3⟩ 0 0 0 ⟨2.75, 6.10, -1.5⟩ vec3Zero
  ++ SetShaderColor st.hasShader 0.05 0.05 0.05 1
  ++ [Event.draw ShapeKind.box]
  ++ SetTransformations tr st.hasShader ⟨0.3, 0.2, 0.3⟩ 0 0 0 ⟨-2.75, 6.10, 1.5⟩ vec3Zero
  ++ SetShaderColor st.hasShader 0.05 0.05 0.05 1
  ++ [Event.draw ShapeKind.box]
  ++ SetTransformations tr st.hasShader ⟨0.3, 0.2, 0.3⟩ 0 0 0 ⟨2.75, 6.10, 1.5⟩ vec3Zero
  ++ SetShaderColor st.hasShader 0.05 0.05 0.05 1
  ++ [Event.draw ShapeKind.box]

/-- `SceneManager::DrawMouse`: base, sloped top, and button. -/
def DrawMouse (tr : Trig) (st : SceneState) : List Event :=
  SetTransformations tr st.hasShader ⟨1.5, 0.2, 2.5⟩ 0 0 0 ⟨6, 0.1, 4⟩ vec3Zero
  ++ SetShaderColor st.hasShader 0.96 0.91 0.76 1
  ++ [Event.draw ShapeKind.box]
  ++ SetTransformations tr st.hasShader ⟨1.5, 0.5, 2.5⟩ 7 0 0 ⟨6, 0.1, 4⟩ vec3Zero
  ++ SetShaderColor st.hasShader 0.96 0.91 0.76 1
  ++ [Event.draw ShapeKind.box]
  ++ SetTransformations tr st.hasShader ⟨1.2, 0.05, 0.5⟩ 7 0 0 ⟨6, 0.45, 3.3⟩ vec3Zero
  ++ SetShaderColor st.hasShader 0.2 0.2 0.2 1
  ++ [Event.draw ShapeKind.box]

/-- `SceneManager::DrawMouseCable`: one color write, then three cylinder
segments. -/
def DrawMouseCable (tr : Trig) (st : SceneState) : List Event :=
  SetShaderColor st.hasShader 0.1 0.1 0.1 1
  ++ SetTransformations tr st.hasShader ⟨0.05, 7.5, 0.05⟩ 90 0 0.25 ⟨6, 0, -3⟩ vec3Zero
  ++ [Event.draw ShapeKind.cylinder]
  ++ SetTransformations tr st.hasShader ⟨0.05, 1, 0.05⟩ 90 0 0.25 ⟨1.25, 0, -3⟩ vec3Zero
  ++ [Event.draw ShapeKind.cylinder]
  ++ SetTransformations tr st.hasShader ⟨0.05, 4.85, 0.05⟩ 0 0 90 ⟨6.05, 0, -3⟩ vec3Zero
  ++ [Event.draw ShapeKind.cylinder]

/-- Modelled from the spec: the default `keyScale` argument of
`SceneManager::DrawKey` is declared in `SceneManager.h`, which is not among
the sources.  Its value only affects the model matrix written for a regular
key, never which calls occur, so it is fixed here as a constant. -/
def defaultKeyScale : Vec3 := ⟨0.3, 0.1, 0.3⟩

/-- The arguments of one `DrawKey(x, y, z, slopeDegrees, keyScale)` call. -/
structure KeyCall where
  x : ℚ
  y : ℚ
  z : ℚ
  slopeDegrees : ℚ
  keyScale : Vec3
  deriving Repr, DecidableEq

/-- The inner `for (col …)` loop of `DrawKeyboard` for a regular key row
(`row < 4`): fourteen keys with the row's vertical adjustment. -/
def keyboardRegularRow (row : Nat) : List KeyCall :=
  (List.range 14).map (fun col =>
    let keySpacingX : ℚ := 0.35
    let keySpacingZ : ℚ := 0.35
    let gridStartX : ℚ := -((14 - 1 : ℚ) * keySpacingX) / 2
    let gridStartZ : ℚ := 5.3
    let y : ℚ := 0.55
    let x := gridStartX + (col : ℚ) * keySpacingX
    let z := gridStartZ - (row : ℚ) * keySpacingZ
    let adjustedY := y + (if row = 3 then 0.1 else 0) + (if row = 2 then 0.06 else 0)
      + (if row = 1 then 0.02 else 0) + (if row = 0 then -0.02 else 0)
    ⟨x, adjustedY, z, 7, defaultKeyScale⟩)

/-- The `for (i …)` loop over the special bottom row of `DrawKeyboard`: each
key is centred at `xCursor + width / 2` and advances the cursor by its width
plus the spacing `0.05`. -/
def keyboardSpecialRowAux : List ℚ → ℚ → List KeyCall
  | [], _ => []
  | w :: rest, xCursor =>
      ⟨xCursor + w / 2, 0.55 - 0.05, 5.3 + 0.35 * 1.2, 7, ⟨w, 0.1, 0.3⟩⟩ ::
        keyboardSpecialRowAux rest (xCursor + w + 0.05)

/-- The special bottom row of `DrawKeyboard`: five keys with widths
`0.3, 0.6, 1.8, 0.6, 0.3`, spaced `0.05` apart and centred. -/
def keyboardSpecialRow : List KeyCall :=
  let widths : List ℚ := [0.3, 0.6, 1.8, 0.6, 0.3]
  let spacing : ℚ := 0.05
  let totalKeyWidth : ℚ := 0.3 + 0.6 + 1.8 + 0.6 + 0.3
  let totalRowWidth := totalKeyWidth + spacing * 4
  keyboardSpecialRowAux widths (-totalRowWidth / 2)

/-- The full sequence of `DrawKey` calls the `for (row …)` loop of
`DrawKeyboard` makes: rows 0–3 are regular fourteen-key rows, row 4 is the
special bottom row. -/
def keyboardKeyParams : List KeyCall :=
  ((List.range 5).map (fun row =>
    if row < 4 then keyboardRegularRow row else keyboardSpecialRow)).flatten

/-- `SceneManager::DrawKey`. -/
def DrawKey (tr : Trig) (st : SceneState) (k : KeyCall) : List Event :=
  SetTransformations tr st.hasShader k.keyScale k.slopeDegrees 0 0 ⟨k.x, k.y, k.z⟩ vec3Zero
  ++ SetShaderMaterial st.materials "plastic" st.junkMaterial
  ++ SetShaderColor st.hasShader 0.2 0.2 0.2 1
  ++ [Event.draw ShapeKind.box]

/-- `SceneManager::DrawKeyboard`: the base box, the sloped upper box, then
one `DrawKey` call per entry of `keyboardKeyParams`. -/
def DrawKeyboard (tr : Trig) (st : SceneState) : List Event :=
  SetTransformations tr st.hasShader ⟨5, 0.5, 2⟩ 0 0 0 ⟨0, 0.1, 5⟩ vec3Zero
  ++ SetShaderMaterial st.materials "plastic" st.junkMaterial
  ++ SetShaderColor st.hasShader 0.96 0.91 0.76 1
  ++ [Event.draw ShapeKind.box]
  ++ SetTransformations tr st.hasShader ⟨5, 0.4, 2⟩ 7 0 0 ⟨0, 0.35, 5⟩ vec3Zero
  ++ SetShaderMaterial st.materials "plastic" st.junkMaterial
  ++ SetShaderColor st.hasShader 0.96 0.91 0.76 1
  ++ [Event.draw ShapeKind.box]
  ++ (keyboardKeyParams.map (DrawKey tr st)).flatten

/-- `SceneManager::DrawKeyboardCable`: one color write, then three cylinder
segments. -/
def DrawKeyboardCable (tr : Trig) (st : SceneState) : List Event :=
  SetShaderColor st.hasShader 0.1 0.1 0.1 1
  ++ SetTransformations tr st.hasShader ⟨0.05, 0.5, 0.05⟩ 90 0 0 ⟨0, 0.1, 3.5⟩ vec3Zero
  ++ [Event.draw ShapeKind.cylinder]
  ++ SetTransformations tr st.hasShader ⟨0.05, 2.02, 0.05⟩ 0 0 90 ⟨2, 0.1, 3.5⟩ vec3Zero
  ++ [Event.draw ShapeKind.cylinder]
  ++ SetTransformations tr st.hasShader ⟨0.05, 3, 0.05⟩ 90 0 0 ⟨2, 0.1, 0.5⟩ vec3Zero
  ++ [Event.draw ShapeKind.cylinder]

/-- `SceneManager::RenderScene`: the plane, then every component in source
order. -/
def RenderScene (tr : Trig) (st : SceneState) : List Event :=
  SetTransformations tr st.hasShader ⟨20, 1, 10⟩ 0 0 0 ⟨0, 0, 0⟩ vec3Zero
  ++ SetShaderTexture st.hasShader st.texState "TableTexture"
  ++ SetShaderMaterial st.materials "cement" st.junkMaterial
  ++ [Event.draw ShapeKind.plane]
  ++ DrawMainBody tr st
  ++ DrawBackBase tr st
  ++ DrawFeet tr st
  ++ DrawFloppyDrive tr st
  ++ DrawCRTPanel tr st
  ++ DrawProFile tr st
  ++ DrawMouse tr st
  ++ DrawMouseCable tr st
  ++ DrawKeyboard tr st
  ++ DrawKeyboardCable tr st

/-- The draw calls of a trace, in order. -/
def drawsOf (es : List Event) : List ShapeKind :=
  es.filterMap (fun e =>
    match e with
    | Event.draw s => some s
    | _ => none)

/-- The draw-call sequence `RenderScene` is expected to produce: the plane,
the main body and back base, the four feet pieces, the three floppy-drive
boxes, the CRT panel, the five ProFile boxes, the three mouse boxes, the
three mouse-cable cylinders, the keyboard base and top and its 61 keys, and
the three keyboard-cable cylinders. -/
def renderSceneDraws : List ShapeKind :=
  [ShapeKind.plane]
  ++ [ShapeKind.box]
  ++ [ShapeKind.box]
  ++ [ShapeKind.box, ShapeKind.prism, ShapeKind.box, ShapeKind.prism]
  ++ [ShapeKind.box, ShapeKind.box, ShapeKind.box]
  ++ [ShapeKind.box]
  ++ [ShapeKind.box, ShapeKind.box, ShapeKind.box, ShapeKind.box, ShapeKind.box]
  ++ [ShapeKind.box, ShapeKind.box, ShapeKind.box]
  ++ [ShapeKind.cylinder, ShapeKind.cylinder, ShapeKind.cylinder]
  ++ ([ShapeKind.box, ShapeKind.box] ++ List.replicate 61 ShapeKind.box)
  ++ [ShapeKind.cylinder, ShapeKind.cylinder, ShapeKind.cylinder]

/-- The values written to a named vec3 uniform by a trace, in order. -/
def vec3WritesTo (uniformName : String) (es : List Event) : List Vec3 :=
  es.filterMap (fun e =>
    match e with
    | Event.setVec3 n v => if n = uniformName then some v else none
    | _ => none)

/-- The values written to a named bool uniform by a trace, in order. -/
def boolWritesTo (uniformName : String) (es : List Event) : List Bool :=
  es.filterMap (fun e =>
    match e with
    | Event.setBool n b => if n = uniformName then some b else none
    | _ => none)

/-- Whether `p` is an initial segment of `s` (character lists). -/
def charsStart : List Char → List Char → Bool
  | [], _ => true
  | _ :: _, [] => false
  | a :: as, b :: bs => a == b && charsStart as bs

/-- A uniform name is about an allowed light index when it either does not
address the `pointLights` array at all or addresses index 0 or 1. -/
def nameHasAllowedLightIndex (n : String) : Bool :=
  !(charsStart "pointLights[".data n.data)
    || charsStart "pointLights[0].".data n.data
    || charsStart "pointLights[1].".data n.data

/-- Walks a trace keeping track of whether the `bUseTexture` uniform has been
written yet; `true` when every draw event is preceded by at least one such
write (so the color/texture mode is determined at every draw call). -/
def modeSetBeforeEveryDraw : List Event → Bool → Bool
  | [], _ => true
  | Event.draw _ :: rest, seen => seen && modeSetBeforeEveryDraw rest seen
  | Event.setInt n _ :: rest, seen =>
      modeSetBeforeEveryDraw rest (seen || (n == "bUseTexture"))
  | _ :: rest, seen => modeSetBeforeEveryDraw rest seen

/-- Whether the `bUseTexture` uniform has been written after processing a
trace, given whether it had been written before (the accumulator
`modeSetBeforeEveryDraw` threads). -/
def seenAfterEvents : List Event → Bool → Bool
  | [], seen => seen
  | Event.setInt n _ :: rest, seen =>
      seenAfterEvents rest (seen || (n == "bUseTexture"))
  | _ :: rest, seen => seenAfterEvents rest seen

/-- Every write to the `bUseTexture` uniform in the trace carries 0 (from
`SetShaderColor`) or 1 (from `SetShaderTexture`). -/
def useTextureWritesZeroOne (es : List Event) : Bool :=
  es.all (fun e =>
    match e with
    | Event.setInt n v => if n == "bUseTexture" then v == 0 || v == 1 else true
    | _ => true)

/-- A texture state with nothing registered, for concrete evaluations. -/
def emptyTexState : TextureState :=
  ⟨fun _ => ⟨0, ""⟩, 0⟩

/-- A texture state whose 16 slots are all occupied, for concrete
evaluations. -/
def fullTexState : TextureState :=
  ⟨fun _ => ⟨0, ""⟩, 16⟩

/-- A texture state with two registered textures, for concrete
evaluations. -/
def twoTexState : TextureState :=
  ⟨fun i => if (i : ℕ) = 0 then ⟨5, "A"⟩ else if (i : ℕ) = 1 then ⟨6, "B"⟩ else ⟨0, ""⟩, 2⟩

/-- A concrete material record standing for arbitrary (uninitialised)
contents, for concrete evaluations. -/
def junkMaterial0 : OBJECT_MATERIAL :=
  ⟨⟨9, 9, 9⟩, ⟨8, 8, 8⟩, 7, "junk"⟩

/-- The result of a successful `CreateGLTexture` call on `emptyTexState` with
fresh-name counter 7 and a 2×2 RGB image. -/
def loadResult0 : LoadResult :=
  { ret := true
    st := { m_textureIDs :=
              Function.update emptyTexState.m_textureIDs
                ⟨0, by decide⟩ ⟨7, "ComputerCase"⟩
            m_loadedTextures := 1 }
    nextName := 8
    console := [ConsoleMsg.runtimeDir,
                ConsoleMsg.attempting "textures/computer_case_texture_2.jpg",
                ConsoleMsg.successLoaded "textures/computer_case_texture_2.jpg" 2 2 3] }

/-! ## Theorems -/

/-- C1: a call to `CreateGLTexture` that returns `true` extends the
texture-registration state by exactly one entry — the slot at the old value
of `m_loadedTextures` holds the newly generated texture ID paired with the
tag, every other slot is unchanged, and `m_loadedTextures` is incremented by
exactly one; a call that returns `false` leaves `m_textureIDs` and
`m_loadedTextures` unchanged. -/
theorem createGLTexture_registration (filename tag : String)
    (decoded : Option ImageData) (st : TextureState) (nextName : Nat)
    (r : LoadResult)
    (hr : CreateGLTexture filename tag decoded st nextName = some r) :
    (r.ret = true →
      ∃ h : st.m_loadedTextures < 16,
        r.st.m_loadedTextures = st.m_loadedTextures + 1 ∧
        r.st.m_textureIDs ⟨st.m_loadedTextures, h⟩ = ⟨nextName, tag⟩ ∧
        ∀ i : Fin 16, (i : ℕ) ≠ st.m_loadedTextures →
          r.st.m_textureIDs i = st.m_textureIDs i) ∧
    (r.ret = false → r.st = st) := by
  cases decoded with
  | none =>
      simp only [CreateGLTexture] at hr
      injection hr with h
      subst h
      exact ⟨fun hret => by simp at hret, fun _ => rfl⟩
  | some image =>
      simp only [CreateGLTexture] at hr
      split at hr
      · split at hr
        · injection hr with h
          subst h
          refine ⟨fun _ => ⟨‹st.m_loadedTextures < 16›, rfl, ?_, ?_⟩,
                  fun hret => by simp at hret⟩
          · exact Function.update_same _ _ _
          · intro i hi
            exact Function.update_noteq (by simpa [Fin.ext_iff] using hi) _ _
        · exact absurd hr (by simp)
      · injection hr with h
        subst h
        exact ⟨fun hret => by simp at hret, fun _ => rfl⟩

/-- C1 witness: a concrete successful load on the empty registration state
registers exactly slot 0. -/
theorem createGLTexture_registration_witness :
    (loadResult0.ret = true →
      ∃ h : emptyTexState.m_loadedTextures < 16,
        loadResult0.st.m_loadedTextures = emptyTexState.m_loadedTextures + 1 ∧
        loadResult0.st.m_textureIDs ⟨emptyTexState.m_loadedTextures, h⟩ =
          ⟨7, "ComputerCase"⟩ ∧
        ∀ i : Fin 16, (i : ℕ) ≠ emptyTexState.m_loadedTextures →
          loadResult0.st.m_textureIDs i = emptyTexState.m_textureIDs i) ∧
    (loadResult0.ret = false → loadResult0.st = emptyTexState) :=
  createGLTexture_registration "textures/computer_case_texture_2.jpg"
    "ComputerCase" (some ⟨2, 2, 3⟩) emptyTexState 7 loadResult0 (by decide)

/-- C2: (within the 16-slot capacity, where the call is defined)
`CreateGLTexture` returns `true` exactly when the image decodes and has 3 or
4 color channels; every other input returns `false`; and each outcome prints
its console message — success, unsupported channel count, or decode
failure. -/
theorem createGLTexture_return_and_console (filename tag : String)
    (decoded : Option ImageData) (st : TextureState) (nextName : Nat)
    (hcap : st.m_loadedTextures < 16) :
    ∃ r : LoadResult,
      CreateGLTexture filename tag decoded st nextName = some r ∧
      (r.ret = true ↔
        ∃ img : ImageData, decoded = some img ∧
          (img.colorChannels = 3 ∨ img.colorChannels = 4)) ∧
      (decoded = none → ConsoleMsg.couldNotLoad filename ∈ r.console) ∧
      (∀ img : ImageData, decoded = some img →
        ¬(img.colorChannels = 3 ∨ img.colorChannels = 4) →
        ConsoleMsg.notImplementedChannels img.colorChannels ∈ r.console) ∧
      (∀ img : ImageData, decoded = some img →
        (img.colorChannels = 3 ∨ img.colorChannels = 4) →
        ConsoleMsg.successLoaded filename img.width img.height
          img.colorChannels ∈ r.console) := by
  cases decoded with
  | none =>
      refine ⟨⟨false, st, nextName,
        [ConsoleMsg.runtimeDir, ConsoleMsg.attempting filename,
         ConsoleMsg.couldNotLoad filename]⟩,
        by simp [CreateGLTexture], ?_, ?_, ?_, ?_⟩ <;> simp
  | some image =>
      by_cases hch : image.colorChannels = 3 ∨ image.colorChannels = 4
      · refine ⟨⟨true,
          ⟨Function.update st.m_textureIDs ⟨st.m_loadedTextures, hcap⟩
             ⟨nextName, tag⟩, st.m_loadedTextures + 1⟩, nextName + 1,
          [ConsoleMsg.runtimeDir, ConsoleMsg.attempting filename,
           ConsoleMsg.successLoaded filename image.width image.height
             image.colorChannels]⟩,
          by simp [CreateGLTexture, hch, hcap], ?_, ?_, ?_, ?_⟩ <;>
          (simp [hch]; try tauto)
      · refine ⟨⟨false, st, nextName + 1,
          [ConsoleMsg.runtimeDir, ConsoleMsg.attempting filename,
           ConsoleMsg.successLoaded filename image.width image.height
             image.colorChannels,
           ConsoleMsg.notImplementedChannels image.colorChannels]⟩,
          by simp [CreateGLTexture, hch], ?_, ?_, ?_, ?_⟩ <;> simp [hch]

/-- C2 witness: a decoded image with 2 color channels is rejected with the
unsupported-channel console message. -/
theorem createGLTexture_return_and_console_witness :
    ∃ r : LoadResult,
      CreateGLTexture "textures/table_texture_1.jpeg" "TableTexture"
        (some ⟨8, 8, 2⟩) emptyTexState 3 = some r ∧
      (r.ret = true ↔
        ∃ img : ImageData, (some ⟨8, 8, 2⟩ : Option ImageData) = some img ∧
          (img.colorChannels = 3 ∨ img.colorChannels = 4)) ∧
      ((some ⟨8, 8, 2⟩ : Option ImageData) = none →
        ConsoleMsg.couldNotLoad "textures/table_texture_1.jpeg" ∈ r.console) ∧
      (∀ img : ImageData, (some ⟨8, 8, 2⟩ : Option ImageData) = some img →
        ¬(img.colorChannels = 3 ∨ img.colorChannels = 4) →
        ConsoleMsg.notImplementedChannels img.colorChannels ∈ r.console) ∧
      (∀ img : ImageData, (some ⟨8, 8, 2⟩ : Option ImageData) = some img →
        (img.colorChannels = 3 ∨ img.colorChannels = 4) →
        ConsoleMsg.successLoaded "textures/table_texture_1.jpeg" img.width
          img.height img.colorChannels ∈ r.console) :=
  createGLTexture_return_and_console "textures/table_texture_1.jpeg"
    "TableTexture" (some ⟨8, 8, 2⟩) emptyTexState 3 (by decide)

/-- C9: the success path of `CreateGLTexture` registers at index
`m_loadedTextures` with no capacity check — the call is undefined (an
out-of-bounds write to the 16-slot array) exactly when a supported image was
decoded while 16 or more textures were already loaded, and whenever it
returns `true` the written slot index equals the old `m_loadedTextures`,
which is in bounds only under the precondition `m_loadedTextures < 16`. -/
theorem createGLTexture_no_capacity_check (filename tag : String)
    (decoded : Option ImageData) (st : TextureState) (nextName : Nat) :
    (CreateGLTexture filename tag decoded st nextName = none ↔
      (∃ img : ImageData, decoded = some img ∧
        (img.colorChannels = 3 ∨ img.colorChannels = 4)) ∧
      16 ≤ st.m_loadedTextures) ∧
    (∀ r : LoadResult,
      CreateGLTexture filename tag decoded st nextName = some r →
      r.ret = true →
      ∃ h : st.m_loadedTextures < 16,
        r.st.m_textureIDs ⟨st.m_loadedTextures, h⟩ = ⟨nextName, tag⟩) := by
  constructor
  · cases decoded with
    | none => simp [CreateGLTexture]
    | some image =>
        by_cases hch : image.colorChannels = 3 ∨ image.colorChannels = 4
        · by_cases hcap : st.m_loadedTextures < 16
          · simp [CreateGLTexture, hch, hcap, Nat.not_le.mpr hcap]
          · simp [CreateGLTexture, hch, hcap, Nat.le_of_not_lt hcap]
        · simp [CreateGLTexture, hch]
  · intro r hr hret
    obtain ⟨h, _, hslot, _⟩ :=
      (createGLTexture_registration filename tag decoded st nextName r hr).1 hret
    exact ⟨h, hslot⟩

/-- C9 witness: with all 16 slots already loaded, a successfully decoded RGB
image makes the registration write land out of bounds (the call has no
defined result). -/
theorem createGLTexture_no_capacity_check_witness :
    (CreateGLTexture "textures/crt_on_texture_1.jpg" "CRTScreen"
        (some ⟨4, 4, 3⟩) fullTexState 9 = none ↔
      (∃ img : ImageData, (some ⟨4, 4, 3⟩ : Option ImageData) = some img ∧
        (img.colorChannels = 3 ∨ img.colorChannels = 4)) ∧
      16 ≤ fullTexState.m_loadedTextures) ∧
    (∀ r : LoadResult,
      CreateGLTexture "textures/crt_on_texture_1.jpg" "CRTScreen"
        (some ⟨4, 4, 3⟩) fullTexState 9 = some r →
      r.ret = true →
      ∃ h : fullTexState.m_loadedTextures < 16,
        r.st.m_textureIDs ⟨fullTexState.m_loadedTextures, h⟩ = ⟨9, "CRTScreen"⟩) :=
  createGLTexture_no_capacity_check "textures/crt_on_texture_1.jpg"
    "CRTScreen" (some ⟨4, 4, 3⟩) fullTexState 9

/-- When no stored material's tag matches, the scan loop leaves the
by-reference argument untouched. -/
theorem findMaterialLoop_no_match (ms : List OBJECT_MATERIAL) (tag : String)
    (material : OBJECT_MATERIAL) (hmiss : ∀ m ∈ ms, m.tag ≠ tag) :
    findMaterialLoop ms tag material = material := by
  induction ms with
  | nil => rfl
  | cons m rest ih =>
      have hm : m.tag ≠ tag := hmiss m (List.mem_cons_self m rest)
      simp only [findMaterialLoop, if_neg hm]
      exact ih fun m' hm' => hmiss m' (List.mem_cons_of_mem m hm')

/-- C7: `FindMaterial` returns `false` exactly when the materials list is
empty; on a non-empty list with no matching tag it still returns `true` and
leaves the output material parameter unmodified, so `SetShaderMaterial`
called with an absent tag writes the three material uniforms with the values
of the uninitialised local `OBJECT_MATERIAL`. -/
theorem findMaterial_uninitialized_fallback (ms : List OBJECT_MATERIAL)
    (tag : String) (material junk : OBJECT_MATERIAL)
    (hne : ms ≠ []) (hmiss : ∀ m ∈ ms, m.tag ≠ tag) :
    (∀ ms' : List OBJECT_MATERIAL,
      ((FindMaterial ms' tag material).1 = false ↔ ms' = [])) ∧
    (FindMaterial ms tag material).1 = true ∧
    (FindMaterial ms tag material).2 = material ∧
    SetShaderMaterial ms tag junk =
      [Event.setVec3 "material.diffuseColor" junk.diffuseColor,
       Event.setVec3 "material.specularColor" junk.specularColor,
       Event.setFloat "material.shininess" junk.shininess] := by
  have hlen : ms.length ≠ 0 := fun h => hne (List.length_eq_zero.mp h)
  refine ⟨fun ms' => ?_, ?_, ?_, ?_⟩
  · cases ms' with
    | nil => simp [FindMaterial]
    | cons m rest => simp [FindMaterial]
  · simp [FindMaterial, hlen]
  · simp [FindMaterial, hlen, findMaterialLoop_no_match ms tag material hmiss]
  · simp [SetShaderMaterial, FindMaterial, Nat.pos_of_ne_zero hlen, hlen,
      findMaterialLoop_no_match ms tag junk hmiss]

/-- C7 witness: looking up the tag `"wood"` (absent from the two defined
materials) returns `true`, leaves the output parameter unmodified, and makes
`SetShaderMaterial` write the junk record's values. -/
theorem findMaterial_uninitialized_fallback_witness :
    (∀ ms' : List OBJECT_MATERIAL,
      ((FindMaterial ms' "wood" junkMaterial0).1 = false ↔ ms' = [])) ∧
    (FindMaterial DefineObjectMaterials "wood" junkMaterial0).1 = true ∧
    (FindMaterial DefineObjectMaterials "wood" junkMaterial0).2 = junkMaterial0 ∧
    SetShaderMaterial DefineObjectMaterials "wood" junkMaterial0 =
      [Event.setVec3 "material.diffuseColor" junkMaterial0.diffuseColor,
       Event.setVec3 "material.specularColor" junkMaterial0.specularColor,
       Event.setFloat "material.shininess" junkMaterial0.shininess] :=
  findMaterial_uninitialized_fallback DefineObjectMaterials "wood"
    junkMaterial0 junkMaterial0 (by simp [DefineObjectMaterials])
    (by decide)

/-- Behaviour of the `DestroyGLTextures` loop on the slot indices
`[a, a + b)` when they all lie inside the 16-slot array: the loop succeeds,
consumes `b` fresh names (one `glGenTextures` call each), keeps
`m_loadedTextures` and every tag, rewrites the `ID` of slot `a + k` to
`name + k`, and leaves slots outside `[a, a + b)` untouched. -/
theorem destroyLoop_range' (b : Nat) : ∀ (a : Nat) (st : TextureState)
    (name : Nat) (calls : List GLCall), a + b ≤ 16 →
    ∃ st', destroyLoop (List.range' a b) st name calls =
        some (st', name + b, calls ++ List.replicate b GLCall.genTextures) ∧
      st'.m_loadedTextures = st.m_loadedTextures ∧
      (∀ i : Fin 16, (st'.m_textureIDs i).tag = (st.m_textureIDs i).tag) ∧
      (∀ i : Fin 16, (i : ℕ) < a ∨ a + b ≤ (i : ℕ) →
        st'.m_textureIDs i = st.m_textureIDs i) ∧
      (∀ i : Fin 16, a ≤ (i : ℕ) → (i : ℕ) < a + b →
        (st'.m_textureIDs i).ID = name + ((i : ℕ) - a)) := by
  induction b with
  | zero =>
      intro a st name calls _
      exact ⟨st, by simp [destroyLoop], rfl, fun _ => rfl,
        fun _ _ => rfl, fun i h1 h2 => absurd h2 (by omega)⟩
  | succ b ih =>
      intro a st name calls hab
      have ha : a < 16 := by omega
      set st1 : TextureState :=
        { st with
          m_textureIDs :=
            Function.update st.m_textureIDs ⟨a, ha⟩
              ⟨name, (st.m_textureIDs ⟨a, ha⟩).tag⟩ } with hst1
      obtain ⟨st', heq, hcount, htags, hout, hin⟩ :=
        ih (a + 1) st1 (name + 1) (calls ++ [GLCall.genTextures]) (by omega)
      refine ⟨st', ?_, ?_, ?_, ?_, ?_⟩
      · rw [List.range'_succ]
        simp only [destroyLoop, genAtSlot, dif_pos ha]
        rw [heq]
        have : (calls ++ [GLCall.genTextures]) ++
            List.replicate b GLCall.genTextures =
            calls ++ List.replicate (b + 1) GLCall.genTextures := by
          rw [List.append_assoc, List.replicate_succ, List.singleton_append]
        rw [this]
        have hname : name + 1 + b = name + (b + 1) := by omega
        rw [hname]
      · rw [hcount, hst1]
      · intro i
        rw [htags i, hst1]
        by_cases hia : i = ⟨a, ha⟩
        · subst hia; simp
        · simp [Function.update_noteq hia]
      · intro i hi
        have h1 : st'.m_textureIDs i = st1.m_textureIDs i := by
          apply hout
          omega
        rw [h1, hst1]
        have hia : i ≠ ⟨a, ha⟩ := by
          simp only [Ne, Fin.ext_iff]
          omega
        simp [Function.update_noteq hia]
      · intro i h1 h2
        by_cases hia : (i : ℕ) = a
        · have : st'.m_textureIDs i = st1.m_textureIDs i := by
            apply hout
            omega
          rw [this, hst1]
          have : i = ⟨a, ha⟩ := Fin.ext hia
          rw [this]
          simp [hia]
        · have := hin i (by omega) (by omega)
          rw [this]
          omega

/-- C8: `DestroyGLTextures` deletes nothing — for each of the first
`m_loadedTextures` slots it calls `glGenTextures`, overwriting the stored ID
with a freshly generated name (`name + i` for slot `i`, all at or above the
old fresh-name counter), never calls `glDeleteTextures`, and leaves
`m_loadedTextures`, every tag, and every slot beyond the loaded count
unchanged, so every slot still appears registered under a new texture
object. -/
theorem destroyGLTextures_deletes_nothing (st : TextureState) (name : Nat)
    (hcount : st.m_loadedTextures ≤ 16) :
    ∃ st', DestroyGLTextures st name =
        some (st', name + st.m_loadedTextures,
          List.replicate st.m_loadedTextures GLCall.genTextures) ∧
      st'.m_loadedTextures = st.m_loadedTextures ∧
      (∀ i : Fin 16, (st'.m_textureIDs i).tag = (st.m_textureIDs i).tag) ∧
      (∀ i : Fin 16, (i : ℕ) < st.m_loadedTextures →
        (st'.m_textureIDs i).ID = name + (i : ℕ) ∧
        name ≤ (st'.m_textureIDs i).ID) ∧
      (∀ i : Fin 16, st.m_loadedTextures ≤ (i : ℕ) →
        st'.m_textureIDs i = st.m_textureIDs i) ∧
      GLCall.deleteTextures ∉
        List.replicate st.m_loadedTextures GLCall.genTextures := by
  obtain ⟨st', heq, hcountEq, htags, hout, hin⟩ :=
    destroyLoop_range' st.m_loadedTextures 0 st name [] (by omega)
  refine ⟨st', ?_, hcountEq, htags, ?_, ?_, ?_⟩
  · rw [DestroyGLTextures, List.range_eq_range']
    rw [heq]
    simp
  · intro i hi
    have := hin i (by omega) (by omega)
    constructor
    · omega
    · omega
  · intro i hi
    exact hout i (Or.inr (by omega))
  · simp [List.mem_replicate]

/-- C8 witness: on a state with two loaded textures and fresh-name counter
20, both slots get new IDs 20 and 21, tags and count survive, and only
`glGenTextures` calls are made. -/
theorem destroyGLTextures_deletes_nothing_witness :
    ∃ st', DestroyGLTextures twoTexState 20 =
        some (st', 20 + twoTexState.m_loadedTextures,
          List.replicate twoTexState.m_loadedTextures GLCall.genTextures) ∧
      st'.m_loadedTextures = twoTexState.m_loadedTextures ∧
      (∀ i : Fin 16, (st'.m_textureIDs i).tag = (twoTexState.m_textureIDs i).tag) ∧
      (∀ i : Fin 16, (i : ℕ) < twoTexState.m_loadedTextures →
        (st'.m_textureIDs i).ID = 20 + (i : ℕ) ∧
        20 ≤ (st'.m_textureIDs i).ID) ∧
      (∀ i : Fin 16, twoTexState.m_loadedTextures ≤ (i : ℕ) →
        st'.m_textureIDs i = twoTexState.m_textureIDs i) ∧
      GLCall.deleteTextures ∉
        List.replicate twoTexState.m_loadedTextures GLCall.genTextures :=
  destroyGLTextures_deletes_nothing twoTexState 20 (by decide)

/-- C4: with a non-null shader manager, `SetTransformations` writes the
`"model"` uniform with exactly
`translate(positionXYZ + offset) * Rz * Ry * Rx * scale(scaleXYZ)`, each
rotation taking its angle through the degree-to-radian conversion; with a
null shader manager it writes no uniform. -/
theorem setTransformations_model_uniform (tr : Trig) (scaleXYZ : Vec3)
    (XrotationDegrees YrotationDegrees ZrotationDegrees : ℚ)
    (positionXYZ offset : Vec3) :
    SetTransformations tr true scaleXYZ XrotationDegrees YrotationDegrees
        ZrotationDegrees positionXYZ offset =
      [Event.setMat4 "model"
        (glmTranslate (positionXYZ + offset) *
          glmRotate (tr.cosf (tr.rad ZrotationDegrees))
            (tr.sinf (tr.rad ZrotationDegrees)) ⟨0, 0, 1⟩ *
          glmRotate (tr.cosf (tr.rad YrotationDegrees))
            (tr.sinf (tr.rad YrotationDegrees)) ⟨0, 1, 0⟩ *
          glmRotate (tr.cosf (tr.rad XrotationDegrees))
            (tr.sinf (tr.rad XrotationDegrees)) ⟨1, 0, 0⟩ *
          glmScale scaleXYZ)] ∧
    SetTransformations tr false scaleXYZ XrotationDegrees YrotationDegrees
        ZrotationDegrees positionXYZ offset = [] :=
  ⟨rfl, rfl⟩

/-- C5: `SetupSceneLights` configures exactly two point lights — one
position write each, `(0, 9.5, 2.5)` for index 0 and `(-1.25, 3.5, 3.0)` for
index 1, one `bActive := true` write each — sets `bUseLighting` to `true`
(twice, both `true`), and writes no uniform addressing any other light
index. -/
theorem setupSceneLights_two_point_lights :
    vec3WritesTo "pointLights[0].position" SetupSceneLights = [⟨0, 9.5, 2.5⟩] ∧
    vec3WritesTo "pointLights[1].position" SetupSceneLights = [⟨-1.25, 3.5, 3⟩] ∧
    boolWritesTo "pointLights[0].bActive" SetupSceneLights = [true] ∧
    boolWritesTo "pointLights[1].bActive" SetupSceneLights = [true] ∧
    boolWritesTo "bUseLighting" SetupSceneLights = [true, true] ∧
    SetupSceneLights.all (fun e => nameHasAllowedLightIndex e.name) = true := by
  refine ⟨?_, ?_, ?_, ?_, ?_, ?_⟩ <;> rfl

theorem drawsOf_nil : drawsOf [] = [] := rfl

theorem drawsOf_append (a b : List Event) :
    drawsOf (a ++ b) = drawsOf a ++ drawsOf b :=
  List.filterMap_append a b _

theorem drawsOf_singleton_draw (s : ShapeKind) :
    drawsOf [Event.draw s] = [s] := rfl

theorem drawsOf_SetTransformations (tr : Trig) (hs : Bool) (sc : Vec3)
    (xr yr zr : ℚ) (p o : Vec3) :
    drawsOf (SetTransformations tr hs sc xr yr zr p o) = [] := by
  cases hs <;> rfl

theorem drawsOf_SetShaderColor (hs : Bool) (r g b a : ℚ) :
    drawsOf (SetShaderColor hs r g b a) = [] := by
  cases hs <;> rfl

theorem drawsOf_SetShaderTexture (hs : Bool) (ts : TextureState) (tag : String) :
    drawsOf (SetShaderTexture hs ts tag) = [] := by
  cases hs <;> rfl

theorem drawsOf_SetTextureUVScale (hs : Bool) (u v : ℚ) :
    drawsOf (SetTextureUVScale hs u v) = [] := by
  cases hs <;> rfl

theorem drawsOf_SetShaderMaterial (ms : List OBJECT_MATERIAL) (tag : String)
    (junk : OBJECT_MATERIAL) :
    drawsOf (SetShaderMaterial ms tag junk) = [] := by
  dsimp only [SetShaderMaterial]
  split_ifs <;> rfl

theorem drawsOf_cons_draw (s : ShapeKind) (rest : List Event) :
    drawsOf (Event.draw s :: rest) = s :: drawsOf rest := rfl

theorem drawsOf_DrawKey (tr : Trig) (st : SceneState) (k : KeyCall) :
    drawsOf (DrawKey tr st k) = [ShapeKind.box] := by
  simp [DrawKey, drawsOf_append, drawsOf_SetTransformations,
    drawsOf_SetShaderMaterial, drawsOf_SetShaderColor, drawsOf_singleton_draw]

theorem drawsOf_flatten_keys (tr : Trig) (st : SceneState) (l : List KeyCall) :
    drawsOf ((l.map (DrawKey tr st)).flatten) =
      List.replicate l.length ShapeKind.box := by
  induction l with
  | nil => rfl
  | cons k ks ih =>
      simp only [List.map_cons, List.flatten_cons, drawsOf_append,
        drawsOf_DrawKey, ih, List.length_cons, List.replicate_succ,
        List.singleton_append]

theorem keyboardKeyParams_length : keyboardKeyParams.length = 61 := by decide

theorem drawsOf_DrawKeyboard (tr : Trig) (st : SceneState) :
    drawsOf (DrawKeyboard tr st) =
      [ShapeKind.box, ShapeKind.box] ++ List.replicate 61 ShapeKind.box := by
  simp [DrawKeyboard, drawsOf_append, drawsOf_SetTransformations,
    drawsOf_SetShaderMaterial, drawsOf_SetShaderColor, drawsOf_singleton_draw,
    drawsOf_cons_draw, drawsOf_flatten_keys, keyboardKeyParams_length]

/-- C3 (amended: the keyboard defines 61 keys, not 63): `RenderScene` issues
exactly one draw call per defined primitive instance — the plane, the main
body, back base, the four feet pieces, the three floppy-drive boxes, the CRT
panel, the five ProFile boxes, the three mouse boxes, three mouse-cable
cylinders, the keyboard base, top and its 61 keys, and three keyboard-cable
cylinders — and the draw-call sequence is the same fixed list
`renderSceneDraws` on every invocation, for every scene-manager state. -/
theorem renderScene_draw_sequence (tr : Trig) (st : SceneState) :
    drawsOf (RenderScene tr st) = renderSceneDraws ∧
    keyboardKeyParams.length = 61 := by
  refine ⟨?_, keyboardKeyParams_length⟩
  simp [RenderScene, DrawMainBody, DrawBackBase, DrawFeet, DrawFloppyDrive,
    DrawCRTPanel, DrawProFile, DrawMouse, DrawMouseCable, DrawKeyboardCable,
    drawsOf_append, drawsOf_SetTransformations, drawsOf_SetShaderColor,
    drawsOf_SetShaderTexture, drawsOf_SetTextureUVScale,
    drawsOf_SetShaderMaterial, drawsOf_singleton_draw, drawsOf_cons_draw,
    drawsOf_nil, drawsOf_DrawKeyboard, renderSceneDraws]

/-- C3 counterexample: the keyboard loops of `DrawKeyboard` make 61 `DrawKey`
calls (four regular rows of fourteen plus the five-key bottom row), not the
63 the claim states. -/
theorem drawKeyboard_keys_61_not_63 :
    keyboardKeyParams.length = 61 ∧ ¬keyboardKeyParams.length = 63 := by
  decide

theorem seenAfter_append (a b : List Event) (s : Bool) :
    seenAfterEvents (a ++ b) s = seenAfterEvents b (seenAfterEvents a s) := by
  induction a generalizing s with
  | nil => rfl
  | cons e rest ih => cases e <;> simp [seenAfterEvents, ih]

theorem seenAfter_true (es : List Event) : seenAfterEvents es true = true := by
  induction es with
  | nil => rfl
  | cons e rest ih => cases e <;> simp [seenAfterEvents, ih]

theorem modeSet_append (a b : List Event) (s : Bool) :
    modeSetBeforeEveryDraw (a ++ b) s =
      (modeSetBeforeEveryDraw a s &&
        modeSetBeforeEveryDraw b (seenAfterEvents a s)) := by
  induction a generalizing s with
  | nil => simp [modeSetBeforeEveryDraw, seenAfterEvents]
  | cons e rest ih =>
      cases e <;>
        simp [modeSetBeforeEveryDraw, seenAfterEvents, ih, Bool.and_assoc]

theorem modeSet_true (es : List Event) :
    modeSetBeforeEveryDraw es true = true := by
  induction es with
  | nil => rfl
  | cons e rest ih => cases e <;> simp [modeSetBeforeEveryDraw, ih]

theorem modeSet_SetTransformations (tr : Trig) (hs : Bool) (sc : Vec3)
    (xr yr zr : ℚ) (p o : Vec3) (s : Bool) :
    modeSetBeforeEveryDraw (SetTransformations tr hs sc xr yr zr p o) s = true := by
  cases hs <;> rfl

theorem seenAfter_SetTransformations (tr : Trig) (hs : Bool) (sc : Vec3)
    (xr yr zr : ℚ) (p o : Vec3) (s : Bool) :
    seenAfterEvents (SetTransformations tr hs sc xr yr zr p o) s = s := by
  cases hs <;> rfl

theorem modeSet_SetShaderTexture (hs : Bool) (ts : TextureState) (tag : String)
    (s : Bool) :
    modeSetBeforeEveryDraw (SetShaderTexture hs ts tag) s = true := by
  cases hs <;> rfl

theorem seenAfter_SetShaderTexture_live (ts : TextureState) (tag : String)
    (s : Bool) :
    seenAfterEvents (SetShaderTexture true ts tag) s = true := by
  cases s <;> rfl

theorem modeSet_SetShaderColor (hs : Bool) (r g b a : ℚ) (s : Bool) :
    modeSetBeforeEveryDraw (SetShaderColor hs r g b a) s = true := by
  cases hs <;> rfl

theorem seenAfter_SetShaderColor_live (r g b a : ℚ) (s : Bool) :
    seenAfterEvents (SetShaderColor true r g b a) s = true := by
  cases s <;> rfl

theorem modeSet_SetTextureUVScale (hs : Bool) (u v : ℚ) (s : Bool) :
    modeSetBeforeEveryDraw (SetTextureUVScale hs u v) s = true := by
  cases hs <;> rfl

theorem seenAfter_SetTextureUVScale (hs : Bool) (u v : ℚ) (s : Bool) :
    seenAfterEvents (SetTextureUVScale hs u v) s = s := by
  cases hs <;> rfl

theorem modeSet_SetShaderMaterial (ms : List OBJECT_MATERIAL) (tag : String)
    (junk : OBJECT_MATERIAL) (s : Bool) :
    modeSetBeforeEveryDraw (SetShaderMaterial ms tag junk) s = true := by
  dsimp only [SetShaderMaterial]
  split_ifs <;> rfl

theorem seenAfter_SetShaderMaterial (ms : List OBJECT_MATERIAL) (tag : String)
    (junk : OBJECT_MATERIAL) (s : Bool) :
    seenAfterEvents (SetShaderMaterial ms tag junk) s = s := by
  dsimp only [SetShaderMaterial]
  split_ifs <;> rfl

theorem modeSet_singleton_draw (x : ShapeKind) (s : Bool) :
    modeSetBeforeEveryDraw [Event.draw x] s = s := by
  cases s <;> rfl

theorem seenAfter_singleton_draw (x : ShapeKind) (s : Bool) :
    seenAfterEvents [Event.draw x] s = s := rfl

theorem utwzo_append (a b : List Event) :
    useTextureWritesZeroOne (a ++ b) =
      (useTextureWritesZeroOne a && useTextureWritesZeroOne b) :=
  List.all_append

theorem utwzo_SetTransformations (tr : Trig) (hs : Bool) (sc : Vec3)
    (xr yr zr : ℚ) (p o : Vec3) :
    useTextureWritesZeroOne (SetTransformations tr hs sc xr yr zr p o) = true := by
  cases hs <;> rfl

theorem utwzo_SetShaderTexture (hs : Bool) (ts : TextureState) (tag : String) :
    useTextureWritesZeroOne (SetShaderTexture hs ts tag) = true := by
  cases hs <;> rfl

theorem utwzo_SetShaderColor (hs : Bool) (r g b a : ℚ) :
    useTextureWritesZeroOne (SetShaderColor hs r g b a) = true := by
  cases hs <;> rfl

theorem utwzo_SetTextureUVScale (hs : Bool) (u v : ℚ) :
    useTextureWritesZeroOne (SetTextureUVScale hs u v) = true := by
  cases hs <;> rfl

theorem utwzo_SetShaderMaterial (ms : List OBJECT_MATERIAL) (tag : String)
    (junk : OBJECT_MATERIAL) :
    useTextureWritesZeroOne (SetShaderMaterial ms tag junk) = true := by
  dsimp only [SetShaderMaterial]
  split_ifs <;> rfl

theorem utwzo_singleton_draw (x : ShapeKind) :
    useTextureWritesZeroOne [Event.draw x] = true := rfl

theorem utwzo_DrawKey (tr : Trig) (st : SceneState) (k : KeyCall) :
    useTextureWritesZeroOne (DrawKey tr st k) = true := by
  simp [DrawKey, utwzo_append, utwzo_SetTransformations,
    utwzo_SetShaderMaterial, utwzo_SetShaderColor, utwzo_singleton_draw]

theorem utwzo_flatten_keys (tr : Trig) (st : SceneState) (l : List KeyCall) :
    useTextureWritesZeroOne ((l.map (DrawKey tr st)).flatten) = true := by
  induction l with
  | nil => rfl
  | cons k ks ih =>
      simp only [List.map_cons, List.flatten_cons, utwzo_append,
        utwzo_DrawKey, ih, Bool.and_self]

/-- C6: the color and texture modes are mutually exclusive — every
`SetShaderColor` call (with a live shader) writes `bUseTexture := false`
(the int 0) and then `objectColor := RGBA`, every `SetShaderTexture` call
writes `bUseTexture := true` (the int 1) and the texture slot — and in the
full `RenderScene` trace over the prepared materials every draw call is
preceded by at least one `bUseTexture` write, every such write being 0 or 1,
so at each draw `bUseTexture` holds whichever mode was set most recently. -/
theorem shader_color_texture_mode_exclusive (tr : Trig) (ts : TextureState)
    (junk : OBJECT_MATERIAL) :
    (∀ r g b a : ℚ, SetShaderColor true r g b a =
      [Event.setInt "bUseTexture" 0,
       Event.setVec4 "objectColor" ⟨r, g, b, a⟩]) ∧
    (∀ tag : String, SetShaderTexture true ts tag =
      [Event.setInt "bUseTexture" 1,
       Event.setSampler2D "objectTexture" (FindTextureSlot ts tag)]) ∧
    modeSetBeforeEveryDraw
      (RenderScene tr ⟨true, ts, DefineObjectMaterials, junk⟩) false = true ∧
    useTextureWritesZeroOne
      (RenderScene tr ⟨true, ts, DefineObjectMaterials, junk⟩) = true := by
  refine ⟨fun _ _ _ _ => rfl, fun _ => rfl, ?_, ?_⟩
  · simp only [RenderScene, DrawMainBody, DrawBackBase, DrawFeet,
      DrawFloppyDrive, DrawCRTPanel, DrawProFile, DrawMouse, DrawMouseCable,
      DrawKeyboard, DrawKeyboardCable, modeSet_append, seenAfter_append,
      modeSet_SetTransformations, seenAfter_SetTransformations,
      modeSet_SetShaderTexture, seenAfter_SetShaderTexture_live,
      modeSet_SetShaderColor, seenAfter_SetShaderColor_live,
      modeSet_SetTextureUVScale, seenAfter_SetTextureUVScale,
      modeSet_SetShaderMaterial, seenAfter_SetShaderMaterial,
      modeSet_singleton_draw, seenAfter_singleton_draw, modeSet_true,
      seenAfter_true, Bool.and_true, Bool.true_and, Bool.and_self]
  · simp only [RenderScene, DrawMainBody, DrawBackBase, DrawFeet,
      DrawFloppyDrive, DrawCRTPanel, DrawProFile, DrawMouse, DrawMouseCable,
      DrawKeyboard, DrawKeyboardCable, utwzo_append,
      utwzo_SetTransformations, utwzo_SetShaderTexture, utwzo_SetShaderColor,
      utwzo_SetTextureUVScale, utwzo_SetShaderMaterial, utwzo_singleton_draw,
      utwzo_flatten_keys, Bool.and_true, Bool.true_and, Bool.and_self]

end SceneMgr
